import Mathlib

/-!
Shallow embedding of the apartment-listing application core, verified
against its natural-language specification.

The embedding covers:
* the client-side fetch coordinator `useApartments` (src/hooks/useApartments.ts):
  its observable state, the fetch lifecycle with `AbortController`-based
  cancellation, and the helpers `goToPage`, `submitSearch`, `clearSearch`;
* the listing/creation endpoint (src/app/api/apartments/route.ts): query
  parameter parsing, pagination arithmetic and the validated POST insertion;
* the Zod validation schema (src/lib/validations/Apartment.ts);
* the file retrieval GET/HEAD handlers (the files route).

JavaScript machine integers are modelled as `Int` (all the quantities
involved stay far below 2^53, where JS number arithmetic is exact), prices
as `ℚ`, and `parseInt` / `NaN` as `Option Int` with `none` for `NaN`.
-/

namespace ApartmentApp

/-- Apartment record as produced by the Prisma client (schema: id TEXT,
text fields, price DOUBLE PRECISION, contactNumber TEXT, imageUrls TEXT[],
createdAt timestamp, here an integer tick). -/
structure Apartment where
  id : String
  name : String
  unitNumber : String
  project : String
  description : String
  price : ℚ
  contactNumber : String
  imageUrls : List String
  createdAt : Int
deriving DecidableEq

/-- PaginationInfo exactly as in the `PaginationInfo` interface of
useApartments.ts and as built by the GET handler of route.ts. -/
structure PaginationInfo where
  currentPage : Int
  totalPages : Int
  totalCount : Int
  hasNextPage : Bool
  hasPrevPage : Bool
  limit : Int
deriving DecidableEq

/-- Body of a 200 response of the listing endpoint as read by the hook:
`data.apartments ?? []` and `data.pagination ?? null` both tolerate a
missing member, hence the `Option`s. -/
structure ApiResponse where
  apartments : Option (List Apartment)
  pagination : Option PaginationInfo
deriving DecidableEq

/-- State of the `useApartments` coordinator. The `useState` fields are kept
verbatim; `url` models the query string last written with `router.replace`;
`activeTok`/`nextTok` model `abortRef.current`: each `AbortController` is
identified by a token, and exactly the controller whose token equals
`activeTok` has not been aborted. -/
structure CoordState where
  apartments : List Apartment
  search : String
  currentPage : Int
  limit : Int
  pagination : Option PaginationInfo
  isLoading : Bool
  error : Option String
  url : List (String × String)
  activeTok : Option Nat
  nextTok : Nat
deriving DecidableEq

/-- buildParams of useApartments.ts: page, limit, and search only when the
search text is truthy (nonempty). -/
def buildParams (limit : Int) (page : Int) (searchQuery : String) : List (String × String) :=
  [("page", toString page), ("limit", toString limit)] ++
    (if searchQuery ≠ "" then [("search", searchQuery)] else [])

/-- An in-flight request: the token of its `AbortController` and the
`(page, searchQuery)` arguments of the `fetchApartments` call that issued
it. -/
structure PendingReq where
  tok : Nat
  page : Int
  search : String
deriving DecidableEq

/-- Synchronous prefix of `fetchApartments(page, searchQuery)` up to the
first `await`: set `isLoading`, clear `error`, abort the previous
controller, install a fresh one, and replace the browser URL. Returns the
new state together with the pending request. -/
def fetchStart (s : CoordState) (page : Int) (searchQuery : String) :
    CoordState × PendingReq :=
  let tok := s.nextTok
  ({ s with
      isLoading := true
      error := none
      url := buildParams s.limit page searchQuery
      activeTok := some tok
      nextTok := tok + 1 },
   { tok := tok, page := page, search := searchQuery })

/-- Outcome of an awaited fetch: a parsed 200 body, a thrown `Error`
carrying a message (non-ok response or network failure), or an
`AbortError` rejection of a cancelled request. -/
inductive FetchOutcome where
  | success (resp : ApiResponse)
  | failure (msg : String)
  | aborted
deriving DecidableEq

/-- Resumption of `fetchApartments` after its awaits settle, covering the
three paths of the try/catch/finally: commit the response, record the
error message, or silently ignore an `AbortError`; the `finally` block
clears `isLoading` on every path. -/
def fetchResolve (s : CoordState) (req : PendingReq) (out : FetchOutcome) : CoordState :=
  match out with
  | .success resp =>
      { s with
          apartments := resp.apartments.getD []
          pagination := resp.pagination
          currentPage :=
            match resp.pagination with
            | some p => p.currentPage
            | none => req.page
          isLoading := false }
  | .failure msg => { s with error := some msg, isLoading := false }
  | .aborted => { s with isLoading := false }

/-- Runtime guarantee of `AbortController`: once `abort()` has been called
on a request's controller (its token is no longer the active one), every
pending await of that request rejects with `AbortError`, so the request can
only resolve as `aborted`. -/
def resolvesConsistently (s : CoordState) (req : PendingReq) (out : FetchOutcome) : Prop :=
  some req.tok ≠ s.activeTok → out = FetchOutcome.aborted

/-- The four observable fields the cancellation protocol protects. -/
def committedView (s : CoordState) :
    List Apartment × Option PaginationInfo × Int × Option String :=
  (s.apartments, s.pagination, s.currentPage, s.error)

/-- goToPage of useApartments.ts: bail out on `page < 1`, or when pagination
metadata is known and `page > totalPages`; otherwise set `currentPage` and
issue `fetchApartments(page, search)`. Returns the issued request, `none`
when the call is a no-op. -/
def goToPage (s : CoordState) (page : Int) : CoordState × Option PendingReq :=
  if page < 1 then (s, none)
  else
    match s.pagination with
    | some p =>
        if page > p.totalPages then (s, none)
        else
          let r := fetchStart { s with currentPage := page } page s.search
          (r.1, some r.2)
    | none =>
        let r := fetchStart { s with currentPage := page } page s.search
        (r.1, some r.2)

/-- submitSearch of useApartments.ts: store the query and fetch page 1 with
it. -/
def submitSearch (s : CoordState) (q : String) : CoordState × PendingReq :=
  fetchStart { s with search := q } 1 q

/-- clearSearch of useApartments.ts: store the empty query and fetch page 1
with it. -/
def clearSearch (s : CoordState) : CoordState × PendingReq :=
  fetchStart { s with search := "" } 1 ""

/-- State of the hook right after the `useState` initializers ran, before
the mount effect fires: empty list, URL-derived query/page/limit, no
pagination metadata, not loading, no error, no controller yet. -/
def initCoordState (initialPage : Int) (initialQuery : String) (initialLimit : Int) :
    CoordState :=
  { apartments := []
    search := initialQuery
    currentPage := initialPage
    limit := initialLimit
    pagination := none
    isLoading := false
    error := none
    url := []
    activeTok := none
    nextTok := 0 }

/-- Numeric value of a decimal digit. -/
def decDigit (c : Char) : Option Nat :=
  if c.isDigit then some (c.toNat - 48) else none

/-- Numeric value of a hexadecimal digit. -/
def hexDigit (c : Char) : Option Nat :=
  if c.isDigit then some (c.toNat - 48)
  else if 'a' ≤ c ∧ c ≤ 'f' then some (c.toNat - 97 + 10)
  else if 'A' ≤ c ∧ c ≤ 'F' then some (c.toNat - 65 + 10)
  else none

/-- Accumulate the value of the longest digit prefix in the given base,
stopping at the first non-digit. -/
def digitsVal (f : Char → Option Nat) (base : Nat) (acc : Nat) : List Char → Nat
  | [] => acc
  | c :: cs =>
      match f c with
      | some d => digitsVal f base (acc * base + d) cs
      | none => acc

/-- JavaScript `parseInt(s)` (radix unspecified): skip leading whitespace,
read an optional sign, switch to base 16 on a `0x`/`0X` prefix, then take
the value of the longest digit prefix; `none` models `NaN` (no digit at
all). -/
def jsParseInt (s : String) : Option Int :=
  let cs := s.data.dropWhile (fun c => c = ' ' ∨ c = '\t' ∨ c = '\n' ∨ c = '\r')
  let sgncs : Int × List Char :=
    match cs with
    | '-' :: rest => (-1, rest)
    | '+' :: rest => (1, rest)
    | _ => (1, cs)
  match sgncs.2 with
  | '0' :: 'x' :: rest =>
      match rest with
      | c :: _ =>
          match hexDigit c with
          | some _ => some (sgncs.1 * digitsVal hexDigit 16 0 rest)
          | none => none
      | [] => none
  | '0' :: 'X' :: rest =>
      match rest with
      | c :: _ =>
          match hexDigit c with
          | some _ => some (sgncs.1 * digitsVal hexDigit 16 0 rest)
          | none => none
      | [] => none
  | c :: rest =>
      match decDigit c with
      | some _ => some (sgncs.1 * digitsVal decDigit 10 0 (c :: rest))
      | none => none
  | [] => none

/-- JavaScript `x || dflt` on a nullable string: `null` and the empty
string are falsy. `searchParams.get` yields `none` for an absent
parameter. -/
def orDefault (v : Option String) (dflt : String) : String :=
  match v with
  | some s => if s = "" then dflt else s
  | none => dflt

/-- Parsing of the `page` query parameter in the GET handler of route.ts:
`parseInt(searchParams.get("page") || "1")`. -/
def getPageParam (v : Option String) : Option Int :=
  jsParseInt (orDefault v "1")

/-- Parsing of the `limit` query parameter in the GET handler of route.ts:
`parseInt(searchParams.get("limit") || "10")`. -/
def getLimitParam (v : Option String) : Option Int :=
  jsParseInt (orDefault v "10")

/-- Offset computation of the GET handler: `skip = (page - 1) * limit`. -/
def routeSkip (page limit : Int) : Int :=
  (page - 1) * limit

/-- Containment of `sub` as a contiguous character run of `s`, used for the
Prisma `contains` filter and for `String.includes` checks. -/
def hasPref : List Char → List Char → Bool
  | [], _ => true
  | _ :: _, [] => false
  | a :: as, b :: bs => a = b && hasPref as bs

/-- List version of substring containment. -/
def hasSubList (sub : List Char) : List Char → Bool
  | [] => hasPref sub []
  | c :: rest => hasPref sub (c :: rest) || hasSubList sub rest

/-- String version of substring containment. -/
def hasSub (s sub : String) : Bool :=
  hasSubList sub.data s.data

/-- One disjunct of the Prisma where-clause of route.ts: case-insensitive
`contains` on a field. -/
def containsInsensitive (field q : String) : Bool :=
  hasSub (String.mk (field.data.map Char.toLower)) (String.mk (q.data.map Char.toLower))

/-- Prisma where-clause of the GET handler: OR of case-insensitive
`contains` over name, unitNumber and project. -/
def matchesSearch (q : String) (a : Apartment) : Bool :=
  containsInsensitive a.name q || containsInsensitive a.unitNumber q ||
    containsInsensitive a.project q

/-- Records selected by the GET handler's where-clause: `search ? {OR:...} : {}`,
so the filter applies only for a present, truthy (nonempty) search. -/
def filteredStore (store : List Apartment) (search : Option String) : List Apartment :=
  match search with
  | some q => if q ≠ "" then store.filter (matchesSearch q) else store
  | none => store

/-- Math.ceil(t / l) of the GET handler for integer `t` and `l`, exact for
`l > 0` (the only regime the claims quantify over): the ceiling of the real
quotient equals the negated floor division of the negation, and `Int`'s `/`
is floor division for a positive divisor. -/
def jsCeilDiv (t l : Int) : Int :=
  -((-t) / l)

/-- Successful result of the GET handler of route.ts after parameter
parsing: the `skip` value sent to the store and the JSON body. The store
list is taken in `createdAt`-descending order, matching the `orderBy` of
the query. -/
def listApartments (store : List Apartment) (search : Option String)
    (page limit : Int) : Int × (List Apartment × PaginationInfo) :=
  let filtered := filteredStore store search
  let skip := routeSkip page limit
  let totalCount : Int := filtered.length
  let records := (filtered.drop skip.toNat).take limit.toNat
  let totalPages := jsCeilDiv totalCount limit
  (skip,
   (records,
    { currentPage := page
      totalPages := totalPages
      totalCount := totalCount
      hasNextPage := decide (page < totalPages)
      hasPrevPage := decide (page > 1)
      limit := limit }))

/-- Packaging of a 200 listing body as the hook parses it; used to connect
the server response to the coordinator's resolution. -/
def serverSuccess (r : List Apartment × PaginationInfo) : ApiResponse :=
  { apartments := some r.1, pagination := some r.2 }

/-- Search parameter received by the server for a client fetch with text
`q`: buildParams omits the parameter entirely for the empty text. -/
def requestSearch (q : String) : Option String :=
  if q = "" then none else some q

/-- Value of a list of decimal digits. -/
def decVal (cs : List Char) : Nat :=
  digitsVal decDigit 10 0 cs

/-- JavaScript `Number(s)` on a finite numeric literal: trimmed empty input
is 0; otherwise an optional sign followed by a decimal literal with
optional fraction and exponent, or a hexadecimal literal; `none` models
`NaN`. -/
def jsNumber (s : String) : Option ℚ :=
  let ws : Char → Prop := fun c => c = ' ' ∨ c = '\t' ∨ c = '\n' ∨ c = '\r'
  let cs := ((s.data.dropWhile ws).reverse.dropWhile ws).reverse
  if cs = [] then some 0
  else
    let sgncs : ℚ × List Char :=
      match cs with
      | '-' :: rest => (-1, rest)
      | '+' :: rest => (1, rest)
      | _ => (1, cs)
    match sgncs.2 with
    | '0' :: 'x' :: rest =>
        if rest ≠ [] ∧ rest.all (fun c => (hexDigit c).isSome) then
          some (sgncs.1 * digitsVal hexDigit 16 0 rest)
        else none
    | body =>
        let ip := body.takeWhile Char.isDigit
        let rest := body.dropWhile Char.isDigit
        let fprest : List Char × List Char :=
          match rest with
          | '.' :: r => (r.takeWhile Char.isDigit, r.dropWhile Char.isDigit)
          | _ => ([], rest)
        let fp := fprest.1
        if ip = [] ∧ fp = [] then none
        else
          let mantissa : ℚ := decVal ip + (decVal fp : ℚ) / ((10 : ℚ) ^ fp.length)
          match fprest.2 with
          | [] => some (sgncs.1 * mantissa)
          | e :: r =>
              if e = 'e' ∨ e = 'E' then
                let esr : Int × List Char :=
                  match r with
                  | '+' :: r2 => (1, r2)
                  | '-' :: r2 => (-1, r2)
                  | _ => (1, r)
                let ed := esr.2.takeWhile Char.isDigit
                if ed = [] ∨ esr.2.dropWhile Char.isDigit ≠ [] then none
                else some (sgncs.1 * mantissa * (10 : ℚ) ^ (esr.1 * (decVal ed : Int)))
              else none

/-- Input shape of the creation endpoint after JSON parsing: the Zod schema
accepts a price given either as a number or as a numeric string (the
union branch of ApartmentSchema). -/
inductive PriceInput where
  | num (q : ℚ)
  | str (s : String)
deriving DecidableEq

/-- Request body of POST /api/apartments as matched by ApartmentSchema. -/
structure ApartmentInput where
  name : String
  unitNumber : String
  project : String
  description : String
  price : PriceInput
  contactNumber : String
  imageUrls : List String
deriving DecidableEq

/-- Parsed data as inserted by `prisma.apartment.create`: the price has
been transformed to a number. -/
structure ValidApartment where
  name : String
  unitNumber : String
  project : String
  description : String
  price : ℚ
  contactNumber : String
  imageUrls : List String
deriving DecidableEq

/-- One entry of the treeified Zod error report: offending field plus its
message. -/
structure FieldError where
  field : String
  message : String
deriving DecidableEq

/-- Price union of ApartmentSchema: a positive number, or a string whose
`Number` value is not NaN and positive, transformed to that value. -/
def validatePrice : PriceInput → Except (List String) ℚ
  | .num q =>
      if 0 < q then .ok q else .error ["Price must be greater than 0"]
  | .str s =>
      match jsNumber s with
      | some q =>
          if 0 < q then .ok q else .error ["Price must be a valid positive number"]
      | none => .error ["Price must be a valid positive number"]

/-- Regex `^(\+201|00201)[0-2,5]{1}[0-9]{8}$` of ApartmentSchema (the
character class literally contains the comma). -/
def matchesContactNumber (s : String) : Bool :=
  let tail : List Char → Bool := fun cs =>
    match cs with
    | c :: ds =>
        (c = '0' ∨ c = '1' ∨ c = '2' ∨ c = ',' ∨ c = '5') &&
          ds.length = 8 && ds.all Char.isDigit
    | [] => false
  (if hasPref "+201".data s.data then tail (s.data.drop 4) else false) ||
    (if hasPref "00201".data s.data then tail (s.data.drop 5) else false)

/-- Issues of the four `z.string().min(1, ...)` fields of ApartmentSchema. -/
def textFieldErrors (a : ApartmentInput) : List FieldError :=
  (if a.name.length = 0 then [{ field := "name", message := "Name is required" }] else []) ++
    (if a.unitNumber.length = 0 then
      [{ field := "unitNumber", message := "Unit number is required" }] else []) ++
    (if a.project.length = 0 then
      [{ field := "project", message := "Project name is required" }] else []) ++
    (if a.description.length = 0 then
      [{ field := "description", message := "Description is required" }] else [])

/-- Issue of the contactNumber regex check of ApartmentSchema. -/
def contactErrors (a : ApartmentInput) : List FieldError :=
  if matchesContactNumber a.contactNumber then []
  else [{ field := "contactNumber",
          message := "Contact number should be in the format +201101029668" }]

/-- Issues of the imageUrls array of ApartmentSchema: per-element URL
format, then the min-1 and max-8 length bounds. -/
def imageUrlErrors (a : ApartmentInput) : List FieldError :=
  (a.imageUrls.filterMap fun u =>
      if hasPref "/api/files/".data u.data then none
      else some { field := "imageUrls", message := "Invalid image URL format" }) ++
    (if a.imageUrls.length < 1 then
      [{ field := "imageUrls", message := "At least one image is required" }] else []) ++
    (if a.imageUrls.length > 8 then
      [{ field := "imageUrls", message := "Maximum of 8 images allowed" }] else [])

/-- ApartmentSchema.safeParse: collect the issues of every field; succeed
with the transformed data exactly when there is none. -/
def validateApartment (a : ApartmentInput) : Except (List FieldError) ValidApartment :=
  match validatePrice a.price with
  | .ok p =>
      match textFieldErrors a ++ contactErrors a ++ imageUrlErrors a with
      | [] =>
          .ok { name := a.name, unitNumber := a.unitNumber, project := a.project,
                description := a.description, price := p,
                contactNumber := a.contactNumber, imageUrls := a.imageUrls }
      | e :: es => .error (e :: es)
  | .error ms =>
      .error (textFieldErrors a ++
        ms.map (fun m => { field := "price", message := m }) ++
        contactErrors a ++ imageUrlErrors a)

/-- HTTP result of the POST handler of route.ts: 201 with the stored
record, or 400 with the treeified validation report. -/
inductive PostResult where
  | created (a : ValidApartment)
  | badRequest (errors : List FieldError)
deriving DecidableEq

/-- POST handler of route.ts: validate with ApartmentSchema; on failure
answer 400 and touch nothing; on success insert the parsed data into the
store and answer 201. -/
def postApartment (store : List ValidApartment) (body : ApartmentInput) :
    List ValidApartment × PostResult :=
  match validateApartment body with
  | .error es => (store, .badRequest es)
  | .ok rec => (store ++ [rec], .created rec)

/-- Data-model invariants of §3 of the spec for a stored record. -/
def recordInvariants (r : ValidApartment) : Prop :=
  r.name ≠ "" ∧ r.unitNumber ≠ "" ∧ r.project ≠ "" ∧ r.description ≠ "" ∧
    0 < r.price ∧ matchesContactNumber r.contactNumber = true ∧
    1 ≤ r.imageUrls.length ∧ r.imageUrls.length ≤ 8

/-- JavaScript `filename.includes(c)` for a single character. -/
def containsChar (s : String) (c : Char) : Bool :=
  s.data.any (fun d => d = c)

/-- Upload directory of the files route: `path.resolve(process.cwd(),
"files", "uploads")` with the container working directory `/app` fixed by
the Dockerfile. -/
def UPLOAD_DIR : String :=
  "/app/files/uploads"

/-- Normalization pass of `path.join` on slash-separated segments of an
absolute path: drop empty and `.` segments, let `..` pop the previous
segment (or vanish at the root). -/
def normalizeSegs (acc : List String) : List String → List String
  | [] => acc.reverse
  | seg :: rest =>
      if seg = "" ∨ seg = "." then normalizeSegs acc rest
      else if seg = ".." then
        match acc with
        | [] => normalizeSegs [] rest
        | _ :: acc2 => normalizeSegs acc2 rest
      else normalizeSegs (seg :: acc) rest

/-- Split a character list at `/`. -/
def splitSlash (cur : List Char) : List Char → List String
  | [] => [String.mk cur.reverse]
  | c :: cs =>
      if c = '/' then String.mk cur.reverse :: splitSlash [] cs
      else splitSlash (c :: cur) cs

/-- Join a normalized segment list back into an absolute path. -/
def joinSegs : List String → String
  | [] => ""
  | [s] => s
  | s :: rest => s ++ "/" ++ joinSegs rest

/-- Node `path.join(base, name)` for an absolute `base`: concatenate with a
slash and normalize. -/
def pathJoin (base name : String) : String :=
  "/" ++ joinSegs (normalizeSegs [] (splitSlash [] (base ++ "/" ++ name).data))

/-- Filesystem operations a file-route handler performs, in order. -/
inductive FsOp where
  | probe (p : String)
  | read (p : String)
deriving DecidableEq

/-- HTTP result of the files GET handler. -/
inductive FileGetResult where
  | badRequest
  | notFound
  | ok (p : String)
deriving DecidableEq

/-- GET handler of the files route: reject a filename containing `..` or
`/` with 400 before any filesystem call; otherwise join it to the upload
directory, probe existence, and read the file on a hit. The second
component records every filesystem access made. -/
def fileGET (fsExists : String → Bool) (filename : String) :
    FileGetResult × List FsOp :=
  if hasSub filename ".." || containsChar filename '/' then (.badRequest, [])
  else
    let filePath := pathJoin UPLOAD_DIR filename
    if fsExists filePath then (.ok filePath, [.probe filePath, .read filePath])
    else (.notFound, [.probe filePath])

/-- HTTP result of the files HEAD handler. -/
inductive FileHeadResult where
  | ok200
  | notFound404
deriving DecidableEq

/-- HEAD handler of the files route: join the raw filename to the upload
directory with no validation whatsoever and report existence. -/
def fileHEAD (fsExists : String → Bool) (filename : String) :
    FileHeadResult × List FsOp :=
  let filePath := pathJoin UPLOAD_DIR filename
  (if fsExists filePath then .ok200 else .notFound404, [.probe filePath])

/-- Scenario shared by the race-condition claims: from `s0`, fetch A is
issued, then fetch B is issued before A resolves. Yields the state after
both issues together with the two pending requests. -/
def overlapScenario (s0 : CoordState) (pA pB : Int) (qA qB : String) :
    CoordState × PendingReq × PendingReq :=
  let a := fetchStart s0 pA qA
  let b := fetchStart a.1 pB qB
  (b.1, a.2, b.2)

/-- Store of 17 identical records for the concrete pagination example of
the spec (`totalCount = 17`). -/
def seventeenStore : List Apartment :=
  List.replicate 17
    { id := "id", name := "Apartment", unitNumber := "A1", project := "Skyline",
      description := "d", price := 1, contactNumber := "+201101029668",
      imageUrls := ["/api/files/a.jpg"], createdAt := 0 }

/-- Creation request that is valid except for `price = -5`. -/
def badPriceInput : ApartmentInput :=
  { name := "Downtown", unitNumber := "A203", project := "Skyline",
    description := "Nice", price := .num (-5), contactNumber := "+201101029668",
    imageUrls := ["/api/files/a.jpg"] }

/-- Fully valid creation request. -/
def goodInput : ApartmentInput :=
  { name := "Downtown", unitNumber := "A203", project := "Skyline",
    description := "Nice", price := .num 250000, contactNumber := "+201101029668",
    imageUrls := ["/api/files/a.jpg"] }

theorem jsCeilDiv_eq_rat_ceil (t l : ℤ) (hl : 0 < l) :
    jsCeilDiv t l = ⌈(t : ℚ) / (l : ℚ)⌉ := by
  have h2 : ((l.toNat : ℚ)) = (l : ℚ) := by exact_mod_cast Int.toNat_of_nonneg hl.le
  have hfloor : ⌊(((-t : ℤ) : ℚ)) / (l : ℚ)⌋ = (-t) / l := by
    rw [← h2, Rat.floor_intCast_div_natCast (-t) l.toNat, Int.toNat_of_nonneg hl.le]
  unfold jsCeilDiv
  rw [← hfloor, Int.cast_neg, neg_div, Int.floor_neg, neg_neg]

/-- C6: a fetch that fails with a genuine error message sets `error` to that
message and clears `isLoading`, while the committed apartments, pagination
and currentPage stay exactly as they were. -/
theorem claim_C6_failure_keeps_committed_data (s : CoordState) (req : PendingReq)
    (msg : String) :
    (fetchResolve s req (.failure msg)).error = some msg ∧
    (fetchResolve s req (.failure msg)).isLoading = false ∧
    (fetchResolve s req (.failure msg)).apartments = s.apartments ∧
    (fetchResolve s req (.failure msg)).pagination = s.pagination ∧
    (fetchResolve s req (.failure msg)).currentPage = s.currentPage :=
  ⟨rfl, rfl, rfl, rfl, rfl⟩

/-- C2 (counterexample): the endpoint does not coerce a non-positive `page`
to 1 — the literal "0" parses to 0, not 1, and the resulting offset
(0-1)*10 is negative; a non-numeric page yields NaN rather than 1. -/
theorem claim_C2_counterexample :
    getPageParam (some "0") = some 0 ∧ (some (0 : Int)) ≠ (some (1 : Int)) ∧
    getLimitParam (some "0") = some 0 ∧
    getPageParam (some "abc") = none ∧
    routeSkip 0 10 = -10 ∧ (-10 : Int) < 0 := by
  refine ⟨by decide, by decide, by decide, by decide, by decide, by decide⟩

/-- C2 (amended): only an absent or empty `page`/`limit` parameter is
defaulted (to 1 and 10); any present non-empty value goes through
`parseInt` with no positivity coercion, so the computed offset is
guaranteed nonnegative only when the parsed values are positive. -/
theorem claim_C2_param_defaulting :
    (∀ v : Option String,
        getPageParam v = if v = none ∨ v = some "" then some 1
          else jsParseInt (v.getD "")) ∧
    (∀ v : Option String,
        getLimitParam v = if v = none ∨ v = some "" then some 10
          else jsParseInt (v.getD "")) ∧
    (∀ page limit : Int, 1 ≤ page → 0 ≤ limit → 0 ≤ routeSkip page limit) ∧
    getPageParam (some "0") = some 0 ∧
    getPageParam (some "abc") = none ∧
    routeSkip 0 10 = -10 := by
  refine ⟨?_, ?_, ?_, by decide, by decide, by decide⟩
  · intro v
    cases v with
    | none => simp [getPageParam, orDefault]; decide
    | some s =>
        by_cases hs : s = "" <;> simp [getPageParam, orDefault, hs]
        decide
  · intro v
    cases v with
    | none => simp [getLimitParam, orDefault]; decide
    | some s =>
        by_cases hs : s = "" <;> simp [getLimitParam, orDefault, hs]
        decide
  · intro page limit hp hl
    have h1 : (0 : Int) ≤ page - 1 := by omega
    exact mul_nonneg h1 hl

/-- C2 (amended) witness: the defaulting and offset facts at concrete
inputs. -/
theorem claim_C2_param_defaulting_witness :
    (1 : Int) ≤ 3 ∧ (0 : Int) ≤ 8 ∧ 0 ≤ routeSkip 3 8 ∧ getPageParam none = some 1 :=
  ⟨by decide, by decide,
   claim_C2_param_defaulting.2.2.1 3 8 (by decide) (by decide),
   by rw [claim_C2_param_defaulting.1 none]; decide⟩

/-- C8: the files GET handler rejects any filename containing a dot-dot or
a slash with 400 before touching the filesystem, and its
filesystem-accessing branch is reachable only for filenames passing both
checks. -/
theorem claim_C8_get_rejects_traversal (fsExists : String → Bool) (filename : String) :
    ((hasSub filename ".." = true ∨ containsChar filename '/' = true) →
        fileGET fsExists filename = (.badRequest, [])) ∧
    ((fileGET fsExists filename).2 ≠ [] →
        hasSub filename ".." = false ∧ containsChar filename '/' = false) := by
  constructor
  · intro h
    have hb : (hasSub filename ".." || containsChar filename '/') = true := by
      rcases h with h | h <;> simp [h]
    simp [fileGET, hb]
  · intro h
    by_cases hb : (hasSub filename ".." || containsChar filename '/') = true
    · exact absurd (by simp [fileGET, hb]) h
    · simp only [Bool.or_eq_true, not_or, Bool.not_eq_true] at hb
      exact hb

/-- C8 witness: the spec's example filename is rejected with no filesystem
access. -/
theorem claim_C8_get_rejects_traversal_witness :
    hasSub "../../etc/passwd" ".." = true ∧
    fileGET (fun _ => true) "../../etc/passwd" = (.badRequest, []) :=
  ⟨by decide,
   (claim_C8_get_rejects_traversal (fun _ => true) "../../etc/passwd").1
     (Or.inl (by decide))⟩

/-- C9: the files HEAD handler applies no filename rejection: for every
filename it probes exactly the raw join of the filename onto the upload
directory and answers 200 iff that path exists (404 otherwise); for the
traversal filename the probed path normalizes to a location outside the
upload directory. -/
theorem claim_C9_head_probes_raw_join (fsExists : String → Bool) (filename : String) :
    ((fileHEAD fsExists filename).1 = .ok200 ↔
        fsExists (pathJoin UPLOAD_DIR filename) = true) ∧
    (fileHEAD fsExists filename).2 = [.probe (pathJoin UPLOAD_DIR filename)] ∧
    pathJoin UPLOAD_DIR "../../etc/passwd" = "/app/etc/passwd" ∧
    hasPref (UPLOAD_DIR ++ "/").data "/app/etc/passwd".data = false := by
  refine ⟨?_, rfl, by decide, by decide⟩
  by_cases hf : fsExists (pathJoin UPLOAD_DIR filename) = true <;>
    simp [fileHEAD, hf]

/-- C10: when fetch B supersedes fetch A, A's aborted resolution leaves the
four protected fields alone but still runs the `finally` cleanup: it
flips `isLoading` back to false even though B — which had set it to true —
is still pending. -/
theorem claim_C10_aborted_cleanup_clears_isLoading (s0 : CoordState) (pA pB : Int)
    (qA qB : String) :
    (overlapScenario s0 pA pB qA qB).1.isLoading = true ∧
    (fetchResolve (overlapScenario s0 pA pB qA qB).1
        (overlapScenario s0 pA pB qA qB).2.1 .aborted).isLoading = false ∧
    committedView (fetchResolve (overlapScenario s0 pA pB qA qB).1
        (overlapScenario s0 pA pB qA qB).2.1 .aborted) =
      committedView (overlapScenario s0 pA pB qA qB).1 :=
  ⟨rfl, rfl, rfl⟩

/-- C5: clearSearch is definitionally submitSearch with the empty text;
submitSearch stores the text and issues a fetch for page 1 with it, and
resolving that fetch against the server's page-1 response (or a response
with no pagination block) leaves `currentPage = 1` whatever the prior
page was. -/
theorem claim_C5_submitSearch_resets_to_page_one (s : CoordState) (q : String) :
    clearSearch s = submitSearch s "" ∧
    (submitSearch s q).1.search = q ∧
    (submitSearch s q).2.page = 1 ∧
    (submitSearch s q).2.search = q ∧
    (∀ (store : List Apartment) (lim : Int),
        (fetchResolve (submitSearch s q).1 (submitSearch s q).2
            (.success (serverSuccess
              (listApartments store (requestSearch q) 1 lim).2))).currentPage = 1) ∧
    (∀ apts : Option (List Apartment),
        (fetchResolve (submitSearch s q).1 (submitSearch s q).2
            (.success { apartments := apts, pagination := none })).currentPage = 1) :=
  ⟨rfl, rfl, rfl, rfl, fun _ _ => rfl, fun _ => rfl⟩

/-- C1: when fetch B is issued before fetch A resolves, A's controller is
no longer the active one, so A can only resolve as aborted; that aborted
resolution never updates apartments, pagination, currentPage or error (in
particular error stays unset), and in either resolution order the four
protected fields end up exactly as B's own resolution leaves them. -/
theorem claim_C1_stale_fetch_never_commits (s0 : CoordState) (pA pB : Int)
    (qA qB : String) (outA outB : FetchOutcome)
    (hA : resolvesConsistently (overlapScenario s0 pA pB qA qB).1
            (overlapScenario s0 pA pB qA qB).2.1 outA) :
    outA = FetchOutcome.aborted ∧
    committedView (fetchResolve (overlapScenario s0 pA pB qA qB).1
        (overlapScenario s0 pA pB qA qB).2.1 outA) =
      committedView (overlapScenario s0 pA pB qA qB).1 ∧
    (fetchResolve (overlapScenario s0 pA pB qA qB).1
        (overlapScenario s0 pA pB qA qB).2.1 outA).error = none ∧
    committedView (fetchResolve
        (fetchResolve (overlapScenario s0 pA pB qA qB).1
          (overlapScenario s0 pA pB qA qB).2.1 outA)
        (overlapScenario s0 pA pB qA qB).2.2 outB) =
      committedView (fetchResolve (overlapScenario s0 pA pB qA qB).1
        (overlapScenario s0 pA pB qA qB).2.2 outB) ∧
    committedView (fetchResolve
        (fetchResolve (overlapScenario s0 pA pB qA qB).1
          (overlapScenario s0 pA pB qA qB).2.2 outB)
        (overlapScenario s0 pA pB qA qB).2.1 outA) =
      committedView (fetchResolve (overlapScenario s0 pA pB qA qB).1
        (overlapScenario s0 pA pB qA qB).2.2 outB) := by
  have htok : some ((overlapScenario s0 pA pB qA qB).2.1.tok) ≠
      (overlapScenario s0 pA pB qA qB).1.activeTok := by
    simp [overlapScenario, fetchStart]
  have hout := hA htok
  subst hout
  refine ⟨rfl, rfl, rfl, ?_, ?_⟩ <;> cases outB <;> rfl

/-- C1 witness: the race at a concrete state with concrete pages and a
concrete successful outcome for B. -/
theorem claim_C1_stale_fetch_never_commits_witness :
    resolvesConsistently (overlapScenario (initCoordState 1 "" 8) 1 2 "" "").1
        (overlapScenario (initCoordState 1 "" 8) 1 2 "" "").2.1
        FetchOutcome.aborted ∧
    (FetchOutcome.aborted = FetchOutcome.aborted ∧
      committedView (fetchResolve (overlapScenario (initCoordState 1 "" 8) 1 2 "" "").1
          (overlapScenario (initCoordState 1 "" 8) 1 2 "" "").2.1 .aborted) =
        committedView (overlapScenario (initCoordState 1 "" 8) 1 2 "" "").1 ∧
      (fetchResolve (overlapScenario (initCoordState 1 "" 8) 1 2 "" "").1
          (overlapScenario (initCoordState 1 "" 8) 1 2 "" "").2.1 .aborted).error = none ∧
      committedView (fetchResolve
          (fetchResolve (overlapScenario (initCoordState 1 "" 8) 1 2 "" "").1
            (overlapScenario (initCoordState 1 "" 8) 1 2 "" "").2.1 .aborted)
          (overlapScenario (initCoordState 1 "" 8) 1 2 "" "").2.2
          (.failure "network down")) =
        committedView (fetchResolve (overlapScenario (initCoordState 1 "" 8) 1 2 "" "").1
          (overlapScenario (initCoordState 1 "" 8) 1 2 "" "").2.2
          (.failure "network down")) ∧
      committedView (fetchResolve
          (fetchResolve (overlapScenario (initCoordState 1 "" 8) 1 2 "" "").1
            (overlapScenario (initCoordState 1 "" 8) 1 2 "" "").2.2
            (.failure "network down"))
          (overlapScenario (initCoordState 1 "" 8) 1 2 "" "").2.1 .aborted) =
        committedView (fetchResolve (overlapScenario (initCoordState 1 "" 8) 1 2 "" "").1
          (overlapScenario (initCoordState 1 "" 8) 1 2 "" "").2.2
          (.failure "network down"))) :=
  ⟨fun _ => rfl,
   claim_C1_stale_fetch_never_commits (initCoordState 1 "" 8) 1 2 "" ""
     .aborted (.failure "network down") (fun _ => rfl)⟩

/-- C4: goToPage is a strict no-op (no fetch, no state or URL change) for
page < 1, and likewise when pagination metadata is known and the target
exceeds totalPages; otherwise it sets currentPage and issues exactly one
fetch for (page, current search text). -/
theorem claim_C4_goToPage_guards (s : CoordState) (page : Int) :
    (page < 1 → goToPage s page = (s, none)) ∧
    (∀ p, s.pagination = some p → p.totalPages < page → goToPage s page = (s, none)) ∧
    (1 ≤ page → (∀ p, s.pagination = some p → page ≤ p.totalPages) →
      goToPage s page =
        ((fetchStart { s with currentPage := page } page s.search).1,
          some { tok := s.nextTok, page := page, search := s.search }) ∧
      (goToPage s page).1.currentPage = page) := by
  refine ⟨?_, ?_, ?_⟩
  · intro h
    simp [goToPage, h]
  · intro p hp hgt
    by_cases h1 : page < 1
    · simp [goToPage, h1]
    · have : page > p.totalPages := hgt
      simp [goToPage, h1, hp, this]
  · intro h1 h2
    have hlt : ¬ page < 1 := by omega
    cases hpg : s.pagination with
    | none =>
        constructor
        · simp [goToPage, hlt, hpg, fetchStart]
        · simp [goToPage, hlt, hpg, fetchStart]
    | some p =>
        have hle : ¬ page > p.totalPages := by
          have := h2 p hpg
          omega
        constructor
        · simp [goToPage, hlt, hpg, hle, fetchStart]
        · simp [goToPage, hlt, hpg, hle, fetchStart]

/-- C4 witness: a no-op call at page 0 and an effective call at page 2 from
the initial state (no pagination metadata yet). -/
theorem claim_C4_goToPage_guards_witness :
    goToPage (initCoordState 1 "" 8) 0 = (initCoordState 1 "" 8, none) ∧
    (goToPage (initCoordState 1 "" 8) 2 =
        ((fetchStart { initCoordState 1 "" 8 with currentPage := 2 } 2
            (initCoordState 1 "" 8).search).1,
          some { tok := (initCoordState 1 "" 8).nextTok, page := 2,
                 search := (initCoordState 1 "" 8).search }) ∧
      (goToPage (initCoordState 1 "" 8) 2).1.currentPage = 2) :=
  ⟨(claim_C4_goToPage_guards (initCoordState 1 "" 8) 0).1 (by decide),
   (claim_C4_goToPage_guards (initCoordState 1 "" 8) 2).2.2 (by decide)
     (fun p hp => nomatch hp)⟩

/-- C3: for page ≥ 1 and limit ≥ 1 the listing endpoint queries the store
at offset (page-1)*limit (never negative), and the returned pagination
block satisfies currentPage = page, totalPages = the true ceiling of
totalCount/limit, hasNextPage = (page < totalPages) and
hasPrevPage = (page > 1); the records are the offset/limit window of the
filtered store. -/
theorem claim_C3_pagination_arithmetic (store : List Apartment)
    (search : Option String) (page limit : Int)
    (hp : 1 ≤ page) (hl : 1 ≤ limit) :
    (listApartments store search page limit).1 = (page - 1) * limit ∧
    0 ≤ (listApartments store search page limit).1 ∧
    (listApartments store search page limit).2.2.currentPage = page ∧
    (listApartments store search page limit).2.2.totalPages =
      ⌈((listApartments store search page limit).2.2.totalCount : ℚ) / (limit : ℚ)⌉ ∧
    (listApartments store search page limit).2.2.totalCount =
      (filteredStore store search).length ∧
    (listApartments store search page limit).2.2.hasNextPage =
      decide (page < (listApartments store search page limit).2.2.totalPages) ∧
    (listApartments store search page limit).2.2.hasPrevPage = decide (1 < page) ∧
    (listApartments store search page limit).2.2.limit = limit ∧
    (listApartments store search page limit).2.1 =
      ((filteredStore store search).drop ((page - 1) * limit).toNat).take limit.toNat := by
  refine ⟨rfl, ?_, rfl, ?_, rfl, rfl, rfl, rfl, rfl⟩
  · have h1 : (0 : Int) ≤ page - 1 := by omega
    exact mul_nonneg h1 (by omega)
  · exact jsCeilDiv_eq_rat_ceil ((filteredStore store search).length) limit (by omega)

/-- C3 witness: the spec's concrete instance totalCount = 17, limit = 8,
page = 3 — offset 16, totalPages 3, exactly one record returned. -/
theorem claim_C3_pagination_arithmetic_witness :
    (1 : Int) ≤ 3 ∧ (1 : Int) ≤ 8 ∧
    (listApartments seventeenStore none 3 8).1 = (3 - 1) * 8 ∧
    (listApartments seventeenStore none 3 8).1 = 16 ∧
    (listApartments seventeenStore none 3 8).2.2.totalPages = 3 ∧
    (listApartments seventeenStore none 3 8).2.1.length = 1 :=
  ⟨by decide, by decide,
   (claim_C3_pagination_arithmetic seventeenStore none 3 8 (by decide) (by decide)).1,
   by decide, by decide, by decide⟩

theorem ite_singleton_ne {α : Type} (c : Prop) [Decidable c] (x : α)
    (h : (if c then [x] else []) = ([] : List α)) : ¬c := by
  intro hc
  rw [if_pos hc] at h
  simp at h

theorem ite_nil_singleton {α : Type} (c : Prop) [Decidable c] (x : α)
    (h : (if c then [] else [x]) = ([] : List α)) : c := by
  by_cases hc : c
  · exact hc
  · rw [if_neg hc] at h
    simp at h

theorem validatePrice_pos (pi : PriceInput) (p : ℚ)
    (h : validatePrice pi = Except.ok p) : 0 < p := by
  unfold validatePrice at h
  split at h
  · split_ifs at h with hq
    · cases h
      exact hq
  · split at h
    · split_ifs at h with hq
      · cases h
        exact hq
    · cases h

theorem validatePrice_error_ne_nil (pi : PriceInput) (ms : List String)
    (h : validatePrice pi = Except.error ms) : ms ≠ [] := by
  unfold validatePrice at h
  split at h
  · split_ifs at h with hq
    cases h
    simp
  · split at h
    · split_ifs at h with hq
      cases h
      simp
    · cases h
      simp

theorem validateApartment_ok_invariants (a : ApartmentInput) (r : ValidApartment)
    (h : validateApartment a = Except.ok r) : recordInvariants r := by
  unfold validateApartment at h
  split at h
  · rename_i p hv
    split at h
    · rename_i hE
      simp only [Except.ok.injEq] at h
      subst h
      unfold textFieldErrors contactErrors imageUrlErrors at hE
      simp only [List.append_eq_nil] at hE
      obtain ⟨⟨⟨⟨⟨hn, hu⟩, hpr⟩, hd⟩, hc⟩, ⟨_, hmin⟩, hmax⟩ := hE
      simp only [recordInvariants]
      refine ⟨?_, ?_, ?_, ?_, validatePrice_pos a.price p hv,
        ite_nil_singleton _ _ hc, ?_, ?_⟩
      · exact fun heq => ite_singleton_ne _ _ hn (by rw [heq]; rfl)
      · exact fun heq => ite_singleton_ne _ _ hu (by rw [heq]; rfl)
      · exact fun heq => ite_singleton_ne _ _ hpr (by rw [heq]; rfl)
      · exact fun heq => ite_singleton_ne _ _ hd (by rw [heq]; rfl)
      · have := ite_singleton_ne _ _ hmin
        omega
      · have := ite_singleton_ne _ _ hmax
        omega
    · cases h
  · cases h

theorem validateApartment_error_ne_nil (a : ApartmentInput) (es : List FieldError)
    (h : validateApartment a = Except.error es) : es ≠ [] := by
  unfold validateApartment at h
  split at h
  · split at h
    · cases h
    · cases h
      simp
  · rename_i ms hv
    cases h
    intro hnil
    have hms := validatePrice_error_ne_nil a.price ms hv
    simp only [List.append_eq_nil, List.map_eq_nil_iff] at hnil
    exact hms hnil.1.1.2

/-- C7: every record the creation endpoint accepts satisfies the §3
data-model invariants; a failed validation yields the structured (nonempty)
field-level report and performs no insertion; hence a store populated only
through the endpoint contains only invariant-satisfying records. -/
theorem claim_C7_validation_gates_insertion :
    (∀ (a : ApartmentInput) (r : ValidApartment),
        validateApartment a = Except.ok r → recordInvariants r) ∧
    (∀ (store : List ValidApartment) (a : ApartmentInput) (es : List FieldError),
        validateApartment a = Except.error es →
          postApartment store a = (store, PostResult.badRequest es) ∧ es ≠ []) ∧
    (∀ (store : List ValidApartment) (a : ApartmentInput),
        (∀ r ∈ store, recordInvariants r) →
        ∀ r ∈ (postApartment store a).1, recordInvariants r) := by
  refine ⟨validateApartment_ok_invariants, ?_, ?_⟩
  · intro store a es h
    refine ⟨?_, validateApartment_error_ne_nil a es h⟩
    unfold postApartment
    rw [h]
  · intro store a hstore r hr
    unfold postApartment at hr
    cases hv : validateApartment a with
    | error es => rw [hv] at hr; exact hstore r hr
    | ok rec =>
        rw [hv] at hr
        rcases List.mem_append.mp hr with hmem | hmem
        · exact hstore r hmem
        · have heq : r = rec := by simpa using hmem
          subst heq
          exact validateApartment_ok_invariants a r hv

/-- C7 witness: price = -5 fails with a price-specific report and inserts
nothing; the fully valid request is accepted and its record satisfies the
invariants. -/
theorem claim_C7_validation_gates_insertion_witness :
    (postApartment [] badPriceInput =
        ([], PostResult.badRequest
          [{ field := "price", message := "Price must be greater than 0" }]) ∧
      [({ field := "price", message := "Price must be greater than 0" } : FieldError)] ≠
        []) ∧
    recordInvariants
      { name := "Downtown", unitNumber := "A203", project := "Skyline",
        description := "Nice", price := 250000,
        contactNumber := "+201101029668", imageUrls := ["/api/files/a.jpg"] } :=
  ⟨claim_C7_validation_gates_insertion.2.1 [] badPriceInput
      [{ field := "price", message := "Price must be greater than 0" }] rfl,
   claim_C7_validation_gates_insertion.1 goodInput
      { name := "Downtown", unitNumber := "A203", project := "Skyline",
        description := "Nice", price := 250000,
        contactNumber := "+201101029668", imageUrls := ["/api/files/a.jpg"] }
      rfl⟩

end ApartmentApp
